import Mathlib

/-!
# Verification of the analysis-history subsystem of `text-intelligence-html`

A shallow embedding of `src/main.js` — the client-side controller for a
text-analysis tool — together with proofs about its history store,
active-selection tracking, request dispatch, and result presentation.

Modelling conventions:
* JavaScript objects whose shapes the code dereferences become Lean
  structures; a field the backend may omit (and whose truthiness the code
  tests) becomes an `Option`.
* `localStorage` is a single slot.  The code only ever observes the slot
  through `JSON.parse`, so the slot is modelled post-parse: either absent
  (`getItem` returned `null`), unparseable (`JSON.parse` threw), or a parsed
  JSON value.  `JSON.stringify`/`JSON.parse` of a value produced by
  `JSON.stringify` is the identity on JSON trees, which the model reflects by
  storing the tree itself; the entry⇄JSON conversion is made explicit by the
  `encodeEntry`/`decodeEntry` codec below.
* JavaScript numbers that the code merely stores and forwards are modelled
  as `ℚ`; their `toFixed(2)` display rendering is not modelled.
* Exceptions become explicit branches: a `try { … } catch { … }` is a match
  on whether the throwing operation succeeded.
-/

/-- Constant `MAX_HISTORY_ENTRIES` from `src/main.js` line 38. -/
def MAX_HISTORY_ENTRIES : Nat := 10

/-- The input mode toggle: the module-level `inputMode` is `'text'` or `'url'`. -/
inductive InputMode
  | text
  | url
deriving DecidableEq, Repr

/-- The `features` object built in `handleAnalyze`: one checkbox per
intelligence feature. -/
structure Features where
  summarize : Bool
  topics : Bool
  sentiment : Bool
  intents : Bool
deriving DecidableEq, Repr

/-- Check `Object.values(features).some(v => v)` — at least one feature checked. -/
def Features.anySelected (f : Features) : Bool :=
  f.summarize || f.topics || f.sentiment || f.intents

/-- The `results.summary` object: `createSummarySection` reads `summary.text`. -/
structure Summary where
  text : Option String
deriving DecidableEq, Repr

/-- One element of `segments[].topics[]`: `createTopicsSection` reads
`item.topic` and (optionally) `item.confidence_score`. -/
structure TopicItem where
  topic : String
  confidence_score : Option ℚ
deriving DecidableEq, Repr

/-- One element of `results.topics.segments[]`: the code reads
`segment.topics` when it is an array. -/
structure TopicSegment where
  topics : Option (List TopicItem)
deriving DecidableEq, Repr

/-- The `results.topics` object: the code reads `topicsData.segments`. -/
structure TopicsData where
  segments : Option (List TopicSegment)
deriving DecidableEq, Repr

/-- One element of `segments[].intents[]`: `createIntentsSection` reads
`item.intent` and (optionally) `item.confidence_score`. -/
structure IntentItem where
  intent : String
  confidence_score : Option ℚ
deriving DecidableEq, Repr

/-- One element of `results.intents.segments[]`. -/
structure IntentSegment where
  intents : Option (List IntentItem)
deriving DecidableEq, Repr

/-- The `results.intents` object. -/
structure IntentsData where
  segments : Option (List IntentSegment)
deriving DecidableEq, Repr

/-- Object `results.sentiments.average`: the code reads `average.sentiment` and
(optionally) `average.sentiment_score`. -/
structure SentimentAverage where
  sentiment : String
  sentiment_score : Option ℚ
deriving DecidableEq, Repr

/-- One element of `results.sentiments.segments[]`.  The code never
dereferences these (only `segments.length` is read in
`createSentimentSection`); the fields here follow the backend's sentiment
segment shape so that the payload can be carried and serialized. -/
structure SentimentSegment where
  text : Option String
  sentiment : Option String
  sentiment_score : Option ℚ
deriving DecidableEq, Repr

/-- Object `results.sentiments`: the code reads `sentimentsData.average` and
`sentimentsData.segments`, of which only `.length` is used. -/
structure SentimentsData where
  average : Option SentimentAverage
  segments : Option (List SentimentSegment)
deriving DecidableEq, Repr

/-- Object `data.results` as dereferenced by `displayResults` and the four
`create*Section` helpers: any of the four feature payloads may be absent. -/
structure Results where
  summary : Option Summary
  topics : Option TopicsData
  sentiments : Option SentimentsData
  intents : Option IntentsData
deriving DecidableEq, Repr

/-- A history entry as built in `handleAnalyze` (lines 211–218):
`{ id, timestamp, input, inputMode, features, results }`.  The `results`
field is `data.results` verbatim, which is `undefined` (here `none`) when a
2xx response body carries no `results` key — the code copies it into the
entry without checking. -/
structure HistoryEntry where
  id : String
  timestamp : String
  input : String
  inputMode : InputMode
  features : Features
  results : Option Results
deriving DecidableEq, Repr

/-- A JSON tree, as produced by `JSON.parse`.  Numbers are modelled as `ℚ`. -/
inductive Json
  | null
  | bool (b : Bool)
  | num (q : ℚ)
  | str (s : String)
  | arr (elems : List Json)
  | obj (fields : List (String × Json))

/-! ### The entry ⇄ JSON codec

`saveToHistory` persists entries with `JSON.stringify` and `getHistory`
recovers them with `JSON.parse`.  `encodeEntry` is the JSON tree that
`JSON.stringify` serializes for one history entry; `decodeEntry` recovers the
typed entry from such a tree.  An `Option` field that is `none` corresponds
to the key being absent from the serialized object. -/

/-- A possibly-absent object field: present keys only. -/
def optField (k : String) : Option Json → List (String × Json)
  | some j => [(k, j)]
  | none => []

def encodeFeatures (f : Features) : Json :=
  .obj [("summarize", .bool f.summarize), ("topics", .bool f.topics),
        ("sentiment", .bool f.sentiment), ("intents", .bool f.intents)]

def encodeSummary (s : Summary) : Json :=
  .obj (optField "text" (s.text.map .str))

def encodeTopicItem (t : TopicItem) : Json :=
  .obj ([("topic", .str t.topic)] ++
    optField "confidence_score" (t.confidence_score.map .num))

def encodeTopicSegment (s : TopicSegment) : Json :=
  .obj (optField "topics" (s.topics.map fun l => .arr (l.map encodeTopicItem)))

def encodeTopicsData (d : TopicsData) : Json :=
  .obj (optField "segments"
    (d.segments.map fun l => .arr (l.map encodeTopicSegment)))

def encodeIntentItem (t : IntentItem) : Json :=
  .obj ([("intent", .str t.intent)] ++
    optField "confidence_score" (t.confidence_score.map .num))

def encodeIntentSegment (s : IntentSegment) : Json :=
  .obj (optField "intents" (s.intents.map fun l => .arr (l.map encodeIntentItem)))

def encodeIntentsData (d : IntentsData) : Json :=
  .obj (optField "segments"
    (d.segments.map fun l => .arr (l.map encodeIntentSegment)))

def encodeSentimentAverage (a : SentimentAverage) : Json :=
  .obj ([("sentiment", .str a.sentiment)] ++
    optField "sentiment_score" (a.sentiment_score.map .num))

def encodeSentimentSegment (s : SentimentSegment) : Json :=
  .obj (optField "text" (s.text.map .str) ++
    optField "sentiment" (s.sentiment.map .str) ++
    optField "sentiment_score" (s.sentiment_score.map .num))

def encodeSentimentsData (d : SentimentsData) : Json :=
  .obj (optField "average" (d.average.map encodeSentimentAverage) ++
    optField "segments"
      (d.segments.map fun l => .arr (l.map encodeSentimentSegment)))

def encodeResults (r : Results) : Json :=
  .obj (optField "summary" (r.summary.map encodeSummary) ++
    optField "topics" (r.topics.map encodeTopicsData) ++
    optField "sentiments" (r.sentiments.map encodeSentimentsData) ++
    optField "intents" (r.intents.map encodeIntentsData))

def encodeInputMode : InputMode → Json
  | .text => .str "text"
  | .url => .str "url"

def encodeEntry (e : HistoryEntry) : Json :=
  .obj ([("id", .str e.id), ("timestamp", .str e.timestamp),
        ("input", .str e.input), ("inputMode", encodeInputMode e.inputMode),
        ("features", encodeFeatures e.features)] ++
    optField "results" (e.results.map encodeResults))

/-- The serialized form of the whole history list (a JSON array,
newest-first), as written by `saveToHistory`. -/
def encodeHistory (l : List HistoryEntry) : Json :=
  .arr (l.map encodeEntry)

/-- Property access `j[k]` on a parsed JSON value. -/
def Json.getField (j : Json) (k : String) : Option Json :=
  match j with
  | .obj fields => fields.lookup k
  | _ => none

def Json.asStr : Json → Option String
  | .str s => some s
  | _ => none

def Json.asNum : Json → Option ℚ
  | .num q => some q
  | _ => none

def Json.asBool : Json → Option Bool
  | .bool b => some b
  | _ => none

def Json.asArr : Json → Option (List Json)
  | .arr l => some l
  | _ => none

/-- Decode an optional field: an absent key decodes to `none`; a present key
must decode. -/
def decodeOptField (j : Json) (k : String) (dec : Json → Option α) :
    Option (Option α) :=
  match j.getField k with
  | none => some none
  | some v => (dec v).map some

/-- Decode a required field. -/
def decodeReqField (j : Json) (k : String) (dec : Json → Option α) : Option α :=
  (j.getField k).bind dec

/-- Decode every element of a list, failing if any element fails. -/
def decodeEach (dec : Json → Option α) : List Json → Option (List α)
  | [] => some []
  | j :: js => do
      let a ← dec j
      let as ← decodeEach dec js
      pure (a :: as)

def decodeListOf (dec : Json → Option α) (j : Json) : Option (List α) :=
  j.asArr.bind (decodeEach dec)

def decodeSummary (j : Json) : Option Summary := do
  let t ← decodeOptField j "text" Json.asStr
  pure ⟨t⟩

def decodeTopicItem (j : Json) : Option TopicItem := do
  let t ← decodeReqField j "topic" Json.asStr
  let c ← decodeOptField j "confidence_score" Json.asNum
  pure ⟨t, c⟩

def decodeTopicSegment (j : Json) : Option TopicSegment := do
  let ts ← decodeOptField j "topics" (decodeListOf decodeTopicItem)
  pure ⟨ts⟩

def decodeTopicsData (j : Json) : Option TopicsData := do
  let segs ← decodeOptField j "segments" (decodeListOf decodeTopicSegment)
  pure ⟨segs⟩

def decodeIntentItem (j : Json) : Option IntentItem := do
  let t ← decodeReqField j "intent" Json.asStr
  let c ← decodeOptField j "confidence_score" Json.asNum
  pure ⟨t, c⟩

def decodeIntentSegment (j : Json) : Option IntentSegment := do
  let ts ← decodeOptField j "intents" (decodeListOf decodeIntentItem)
  pure ⟨ts⟩

def decodeIntentsData (j : Json) : Option IntentsData := do
  let segs ← decodeOptField j "segments" (decodeListOf decodeIntentSegment)
  pure ⟨segs⟩

def decodeSentimentAverage (j : Json) : Option SentimentAverage := do
  let s ← decodeReqField j "sentiment" Json.asStr
  let sc ← decodeOptField j "sentiment_score" Json.asNum
  pure ⟨s, sc⟩

def decodeSentimentSegment (j : Json) : Option SentimentSegment := do
  let t ← decodeOptField j "text" Json.asStr
  let s ← decodeOptField j "sentiment" Json.asStr
  let sc ← decodeOptField j "sentiment_score" Json.asNum
  pure ⟨t, s, sc⟩

def decodeSentimentsData (j : Json) : Option SentimentsData := do
  let avg ← decodeOptField j "average" decodeSentimentAverage
  let segs ← decodeOptField j "segments" (decodeListOf decodeSentimentSegment)
  pure ⟨avg, segs⟩

def decodeResults (j : Json) : Option Results := do
  let s ← decodeOptField j "summary" decodeSummary
  let t ← decodeOptField j "topics" decodeTopicsData
  let se ← decodeOptField j "sentiments" decodeSentimentsData
  let i ← decodeOptField j "intents" decodeIntentsData
  pure ⟨s, t, se, i⟩

def decodeInputMode (j : Json) : Option InputMode :=
  match j with
  | .str "text" => some .text
  | .str "url" => some .url
  | _ => none

def decodeFeatures (j : Json) : Option Features := do
  let s ← decodeReqField j "summarize" Json.asBool
  let t ← decodeReqField j "topics" Json.asBool
  let se ← decodeReqField j "sentiment" Json.asBool
  let i ← decodeReqField j "intents" Json.asBool
  pure ⟨s, t, se, i⟩

def decodeEntry (j : Json) : Option HistoryEntry := do
  let i ← decodeReqField j "id" Json.asStr
  let ts ← decodeReqField j "timestamp" Json.asStr
  let inp ← decodeReqField j "input" Json.asStr
  let m ← decodeReqField j "inputMode" decodeInputMode
  let f ← decodeReqField j "features" decodeFeatures
  let r ← decodeOptField j "results" decodeResults
  pure ⟨i, ts, inp, m, f, r⟩

def decodeHistory (j : Json) : Option (List HistoryEntry) :=
  j.asArr.bind (decodeEach decodeEntry)


/-! ### The persistence slot

`localStorage` as observed through the single key
`'deepgram_text_intelligence_history'`.  The code only ever looks at the slot
through `localStorage.getItem` followed by `JSON.parse`, so the slot is
modelled post-parse. -/

/-- The persisted slot: `getItem` returned `null` (or the empty string, both
falsy), `JSON.parse` threw, or `JSON.parse` produced a value. -/
inductive StoredValue
  | absent
  | unparseable
  | parsed (v : Json)

/-- Function `getHistory` (`src/main.js` lines 517–525): parse the slot inside
`try { … } catch { return [] }`.  An absent slot or a parse failure yields the
empty array; a successfully parsed value is returned as-is (unvalidated).
Total — the embedding of the fact that `getHistory` never throws. -/
def getHistory : StoredValue → Json
  | .absent => .arr []
  | .unparseable => .arr []
  | .parsed v => v

/-- Function `saveToHistory` (`src/main.js` lines 530–540), storage part:
`history.unshift(entry)`, `history.slice(0, MAX_HISTORY_ENTRIES)`,
`localStorage.setItem(…)`, all inside `try { … } catch { console.error }`.
`writeThrows` is whether `setItem` throws (e.g. quota exhaustion); then the
slot is unchanged and the error is swallowed.  If the loaded history is not
an array, `unshift` throws before `setItem` and the slot is also unchanged. -/
def saveToHistory (entry : HistoryEntry) (writeThrows : Bool)
    (st : StoredValue) : StoredValue :=
  match getHistory st with
  | .arr l =>
      if writeThrows then st
      else .parsed (.arr ((encodeEntry entry :: l).take MAX_HISTORY_ENTRIES))
  | _ => st

/-- The number of stored entries, as observed by `renderHistory`
(`history.length`). -/
def historyLength (st : StoredValue) : Nat :=
  match getHistory st with
  | .arr l => l.length
  | _ => 0

/-- The stored correlation ids in stored (newest-first) order, as observed by
`renderHistory` (`entry.id` of each element). -/
def storedIds (st : StoredValue) : List String :=
  match getHistory st with
  | .arr l => l.filterMap fun j => (j.getField "id").bind Json.asStr
  | _ => []

/-! ### Application state and the three mutating handlers -/

/-- The module-level mutable state relevant to the history subsystem: the
persistence slot and `activeAnalysisId` (`src/main.js` line 76). -/
structure AppState where
  storage : StoredValue
  activeAnalysisId : Option String

/-- Function `saveToHistory` lifted to the application state: the function touches
only `localStorage` (and re-renders); it never reads or writes
`activeAnalysisId`. -/
def saveToHistoryApp (entry : HistoryEntry) (writeThrows : Bool)
    (s : AppState) : AppState :=
  { s with storage := saveToHistory entry writeThrows s.storage }

/-- Function `handleClearHistory` (`src/main.js` lines 605–621): inside
`if (confirm(…))`, remove the key and set `activeAnalysisId = null`.
`confirmed` is the user's answer to the dialog. -/
def handleClearHistory (confirmed : Bool) (s : AppState) : AppState :=
  if confirmed then { storage := .absent, activeAnalysisId := none } else s

/-! ### Request dispatch (`handleAnalyze`) -/

/-- The decimal string a JavaScript integer renders as (template literal
`${n}`), built from the base-10 digits. -/
def decimalString (n : Nat) : String :=
  if n = 0 then "0" else ((Nat.digits 10 n).reverse.map Nat.digitChar).asString

/-- Template literal of `src/main.js` line 185: the text `request_` followed
by the decimal rendering of `Date.now()` — the correlation
identifier generated for the dispatch observing `Date.now() = t`. -/
def mkRequestId (t : Nat) : String :=
  "request_" ++ decimalString t

/-- The query parameters built in `handleAnalyze` (lines 172–177): one
`'true'` entry per enabled feature, then the language. -/
def buildParams (f : Features) (lang : String) : List (String × String) :=
  (if f.summarize then [("summarize", "true")] else []) ++
  (if f.topics then [("topics", "true")] else []) ++
  (if f.sentiment then [("sentiment", "true")] else []) ++
  (if f.intents then [("intents", "true")] else []) ++
  [("language", lang)]

/-- One outbound `fetch` to `/text-intelligence/analyze`: query parameters,
JSON body, and the `X-Request-Id` header. -/
structure Request where
  params : List (String × String)
  body : Json
  requestId : String

/-- The backend's answer as `handleAnalyze` observes it: `response.ok`,
`data.error?.message`, and `data.results`.  `results` is `none` when the
response body has no `results` key — which the interface allows even on a
2xx status, e.g. a body of the failure shape `{error: {message: …}}`. -/
structure BackendResponse where
  ok : Bool
  errorMessage : Option String
  results : Option Results

/-- What one `handleAnalyze` run surfaces: an early validation failure
(`showError` before any request), a failed analysis (`showError` in the
`catch`), a success (results handed to `displayResults`), or a rendering
failure: on a 2xx response whose body has no `results` key,
`displayResults(undefined, features)` throws a `TypeError` dereferencing
`results.<feature>` (at least one feature is enabled past validation), the
`catch` surfaces the engine-specific `TypeError` text — not a backend
message — and the `activeAnalysisId` assignment is never reached. -/
inductive Outcome
  | validationError (message : String)
  | analysisError (message : String)
  | success (results : Results)
  | renderFailure
deriving DecidableEq

/-- Selector `inputMode === 'text' ? textInput.value : urlInput.value` — which raw
field feeds the dispatch. -/
def selectedInput (mode : InputMode) (rawText rawUrl : String) : String :=
  match mode with
  | .text => rawText
  | .url => rawUrl

/-- Model of `String.prototype.trim()`: strip leading and trailing whitespace. -/
def jsTrim (s : String) : String :=
  (((s.data.dropWhile Char.isWhitespace).reverse.dropWhile
      Char.isWhitespace).reverse).asString

/-- Function `handleAnalyze` (`src/main.js` lines 148–235) as a function of the values
it reads: the input mode, the two input fields, the four checkboxes, the
language selector, `Date.now()`, `new Date().toISOString()`, the backend's
response, whether the persistence write throws, and the mutable state.
Returns the new state, the outbound requests issued (none on validation
failure, exactly one otherwise — the code has no retry loop), and the
surfaced outcome.

Faithfulness notes mirroring the source:
* `!inputValue` after `.trim()` — the empty-input guard;
* `!Object.values(features).some(v => v)` — the no-feature guard;
* `data.error?.message || 'Analysis failed'` — JavaScript `||` falls through
  to the generic message on a *falsy* backend message, so an empty-string
  message is replaced by the generic one;
* a 2xx response is *not* checked for an `error` field or for the presence
  of `data.results`: the history entry is built with `results: data.results`
  verbatim and saved (`saveToHistory`) in any case; when `data.results` is
  `undefined`, `displayResults` then throws before `activeAnalysisId` is
  assigned (outcome `renderFailure`), the store already mutated;
* when `data.results` is present, `activeAnalysisId = requestId` is assigned
  after the save;
* on a non-2xx response neither `saveToHistory` nor the `activeAnalysisId`
  assignment is reached. -/
def handleAnalyze (mode : InputMode) (rawText rawUrl : String)
    (features : Features) (lang : String) (now : Nat) (timestamp : String)
    (resp : BackendResponse) (writeThrows : Bool) (s : AppState) :
    AppState × List Request × Outcome :=
  let inputValue := jsTrim (selectedInput mode rawText rawUrl)
  if inputValue = "" then
    (s, [], .validationError "Please enter text or URL to analyze")
  else if !features.anySelected then
    (s, [], .validationError "Please select at least one intelligence feature")
  else
    let requestId := mkRequestId now
    let req : Request :=
      { params := buildParams features lang,
        body := match mode with
          | .text => .obj [("text", .str inputValue)]
          | .url => .obj [("url", .str inputValue)],
        requestId := requestId }
    if !resp.ok then
      (s, [req], .analysisError (match resp.errorMessage with
        | some m => if m = "" then "Analysis failed" else m
        | none => "Analysis failed"))
    else
      let entry : HistoryEntry :=
        { id := requestId, timestamp := timestamp, input := inputValue,
          inputMode := mode, features := features, results := resp.results }
      match resp.results with
      | some r =>
          ({ storage := saveToHistory entry writeThrows s.storage,
             activeAnalysisId := some requestId },
           [req], .success r)
      | none =>
          ({ s with storage := saveToHistory entry writeThrows s.storage },
           [req], .renderFailure)

/-! ### The Result Presenter (`displayResults` and the `create*Section` helpers)

The DOM sections appended to the results container are modelled as `Block`
values; `displayResults` yields the ordered list of blocks it appends. -/

/-- One rendered result section.  Each feature has a populated form and the
explicit empty-state form (the muted "No … available/detected" paragraph). -/
inductive Block
  | summaryText (text : String)
  | summaryEmpty
  | topicsList (items : List TopicItem)
  | topicsEmpty
  | sentimentDisplay (avg : SentimentAverage) (segmentsAnalyzed : Option Nat)
  | sentimentEmpty
  | intentsList (items : List IntentItem)
  | intentsEmpty
deriving DecidableEq, Repr

/-- Function `createSummarySection` (lines 275–296): the text when `summary.text` is
truthy (present and non-empty), else the "No summary available" state. -/
def createSummarySection (summary : Summary) : Block :=
  match summary.text with
  | some tx => if tx = "" then .summaryEmpty else .summaryText tx
  | none => .summaryEmpty

/-- The `allTopics` flattening in `createTopicsSection` (lines 309–319):
`segments[].topics[]` in segment-then-item order. -/
def allTopics (d : TopicsData) : List TopicItem :=
  match d.segments with
  | some segs =>
      segs.foldl (fun acc seg =>
        acc ++ (match seg.topics with | some ts => ts | none => [])) []
  | none => []

/-- Function `createTopicsSection` (lines 301–353): the flattened badge list when
non-empty, else the "No topics detected" state. -/
def createTopicsSection (d : TopicsData) : Block :=
  if 0 < (allTopics d).length then .topicsList (allTopics d) else .topicsEmpty

/-- Function `createSentimentSection` (lines 358–418): the aggregate display (with the
segment count when segments exist and are non-empty) when `average` is
present, else the "No sentiment analysis available" state. -/
def createSentimentSection (d : SentimentsData) : Block :=
  match d.average with
  | some avg =>
      .sentimentDisplay avg
        (match d.segments with
         | some segs => if 0 < segs.length then some segs.length else none
         | none => none)
  | none => .sentimentEmpty

/-- The `allIntents` flattening in `createIntentsSection` (lines 432–441). -/
def allIntents (d : IntentsData) : List IntentItem :=
  match d.segments with
  | some segs =>
      segs.foldl (fun acc seg =>
        acc ++ (match seg.intents with | some ts => ts | none => [])) []
  | none => []

/-- Function `createIntentsSection` (lines 423–475). -/
def createIntentsSection (d : IntentsData) : Block :=
  if 0 < (allIntents d).length then .intentsList (allIntents d) else .intentsEmpty

/-- One guarded section of `displayResults`: the singleton section when the
checkbox is checked and the result field is truthy, nothing otherwise. -/
def sectionList {α : Type} (flag : Bool) (field : Option α)
    (mk : α → Block) : List Block :=
  if flag then (match field with | some d => [mk d] | none => []) else []

/-- Function `displayResults` (`src/main.js` lines 244–270): a section is appended for
a feature only when its checkbox was checked *and* the corresponding result
field is truthy (`features.summarize && results.summary`, etc.), in the fixed
order summary, topics, sentiment, intents. -/
def displayResults (results : Results) (features : Features) : List Block :=
  sectionList features.summarize results.summary createSummarySection ++
  sectionList features.topics results.topics createTopicsSection ++
  sectionList features.sentiment results.sentiments createSentimentSection ++
  sectionList features.intents results.intents createIntentsSection

/-! ### Observation functions for the presenter

Spec-side views used to state properties of `displayResults`: which feature
a block belongs to, whether it is an empty-state block, and, per feature,
the request flag, result-field presence, and structural emptiness. -/

/-- A feature name, in the spec's canonical order. -/
inductive FeatureName
  | summarize
  | topics
  | sentiment
  | intents
deriving DecidableEq, Repr

/-- The spec's canonical feature order. -/
def canonicalOrder : List FeatureName :=
  [.summarize, .topics, .sentiment, .intents]

/-- The feature a rendered block belongs to. -/
def Block.feature : Block → FeatureName
  | .summaryText _ => .summarize
  | .summaryEmpty => .summarize
  | .topicsList _ => .topics
  | .topicsEmpty => .topics
  | .sentimentDisplay _ _ => .sentiment
  | .sentimentEmpty => .sentiment
  | .intentsList _ => .intents
  | .intentsEmpty => .intents

/-- Whether a block is the explicit empty-state form. -/
def Block.isEmptyState : Block → Bool
  | .summaryEmpty => true
  | .topicsEmpty => true
  | .sentimentEmpty => true
  | .intentsEmpty => true
  | _ => false

/-- The request flag of a feature in the descriptor. -/
def featureFlag (f : Features) : FeatureName → Bool
  | .summarize => f.summarize
  | .topics => f.topics
  | .sentiment => f.sentiment
  | .intents => f.intents

/-- Whether the result field for a feature is present (truthy). -/
def resultPresent (r : Results) : FeatureName → Bool
  | .summarize => r.summary.isSome
  | .topics => r.topics.isSome
  | .sentiment => r.sentiments.isSome
  | .intents => r.intents.isSome

/-- Whether the (present) result field for a feature is structurally empty:
no summary text, no flattened topics/intents, no sentiment aggregate. -/
def structurallyEmpty (r : Results) : FeatureName → Bool
  | .summarize =>
      match r.summary with
      | some s => match s.text with | some tx => tx = "" | none => true
      | none => true
  | .topics =>
      match r.topics with
      | some d => (allTopics d).length = 0
      | none => true
  | .sentiment =>
      match r.sentiments with
      | some d => d.average.isNone
      | none => true
  | .intents =>
      match r.intents with
      | some d => (allIntents d).length = 0
      | none => true

/-- A minimal history entry with a given id, used for concrete scenarios. -/
def mkEntry (i : String) : HistoryEntry :=
  { id := i, timestamp := "", input := "", inputMode := .text,
    features := ⟨false, false, false, false⟩, results := none }

/-- A concrete state whose store is at capacity (ten records, ids `r10` down
to `r1`, newest-first) and whose active selection is the oldest record. -/
def tenEntryState : AppState :=
  { storage := .parsed (encodeHistory
      (["r10", "r9", "r8", "r7", "r6", "r5", "r4", "r3", "r2", "r1"].map mkEntry)),
    activeAnalysisId := some "r1" }

/-! ## Helper lemmas -/

/-- Key lookup distributes over appended field lists. -/
theorem lookup_append_fields (k : String) (a b : List (String × Json)) :
    (a ++ b).lookup k = ((a.lookup k).orElse fun _ => b.lookup k) := by
  induction a with
  | nil => simp [List.lookup]
  | cons p a ih =>
      obtain ⟨k', v⟩ := p
      by_cases h : k = k'
      · simp [List.lookup, h]
      · have hb : (k == k') = false := by simp [h]
        simp [List.lookup, hb, ih]

/-- Looking up the key of an `optField` recovers the optional value. -/
theorem lookup_optField_self (k : String) (v : Option Json) :
    (optField k v).lookup k = v := by
  cases v <;> simp [optField, List.lookup]

/-- Looking up a different key in an `optField` finds nothing. -/
theorem lookup_optField_ne (k k' : String) (v : Option Json) (h : k ≠ k') :
    (optField k' v).lookup k = none := by
  have hb : (k == k') = false := by simp [h]
  cases v <;> simp [optField, List.lookup, hb]

/-- Mapping an encoder and then decoding each element with a pointwise
inverse recovers the list. -/
theorem decodeEach_map_of_inverse {α : Type} (dec : Json → Option α)
    (enc : α → Json) (h : ∀ a, dec (enc a) = some a) (l : List α) :
    decodeEach dec (l.map enc) = some l := by
  induction l with
  | nil => rfl
  | cons x xs ih => simp [decodeEach, h, ih]

theorem decodeSummary_encodeSummary (s : Summary) :
    decodeSummary (encodeSummary s) = some s := by
  obtain ⟨t⟩ := s
  cases t <;>
    simp [decodeSummary, encodeSummary, decodeOptField, Json.getField,
      lookup_optField_self, Json.asStr]

theorem decodeTopicItem_encodeTopicItem (t : TopicItem) :
    decodeTopicItem (encodeTopicItem t) = some t := by
  obtain ⟨tp, c⟩ := t
  cases c <;>
    simp [decodeTopicItem, encodeTopicItem, decodeReqField, decodeOptField,
      Json.getField, List.lookup, optField, Json.asStr, Json.asNum]

theorem decodeTopicSegment_encodeTopicSegment (s : TopicSegment) :
    decodeTopicSegment (encodeTopicSegment s) = some s := by
  obtain ⟨ts⟩ := s
  cases ts <;>
    simp [decodeTopicSegment, encodeTopicSegment, decodeOptField, Json.getField,
      lookup_optField_self, decodeListOf, Json.asArr,
      decodeEach_map_of_inverse decodeTopicItem encodeTopicItem
        decodeTopicItem_encodeTopicItem]

theorem decodeTopicsData_encodeTopicsData (d : TopicsData) :
    decodeTopicsData (encodeTopicsData d) = some d := by
  obtain ⟨segs⟩ := d
  cases segs <;>
    simp [decodeTopicsData, encodeTopicsData, decodeOptField, Json.getField,
      lookup_optField_self, decodeListOf, Json.asArr,
      decodeEach_map_of_inverse decodeTopicSegment encodeTopicSegment
        decodeTopicSegment_encodeTopicSegment]

theorem decodeIntentItem_encodeIntentItem (t : IntentItem) :
    decodeIntentItem (encodeIntentItem t) = some t := by
  obtain ⟨tp, c⟩ := t
  cases c <;>
    simp [decodeIntentItem, encodeIntentItem, decodeReqField, decodeOptField,
      Json.getField, List.lookup, optField, Json.asStr, Json.asNum]

theorem decodeIntentSegment_encodeIntentSegment (s : IntentSegment) :
    decodeIntentSegment (encodeIntentSegment s) = some s := by
  obtain ⟨ts⟩ := s
  cases ts <;>
    simp [decodeIntentSegment, encodeIntentSegment, decodeOptField,
      Json.getField, lookup_optField_self, decodeListOf, Json.asArr,
      decodeEach_map_of_inverse decodeIntentItem encodeIntentItem
        decodeIntentItem_encodeIntentItem]

theorem decodeIntentsData_encodeIntentsData (d : IntentsData) :
    decodeIntentsData (encodeIntentsData d) = some d := by
  obtain ⟨segs⟩ := d
  cases segs <;>
    simp [decodeIntentsData, encodeIntentsData, decodeOptField, Json.getField,
      lookup_optField_self, decodeListOf, Json.asArr,
      decodeEach_map_of_inverse decodeIntentSegment encodeIntentSegment
        decodeIntentSegment_encodeIntentSegment]

theorem decodeSentimentAverage_encodeSentimentAverage (a : SentimentAverage) :
    decodeSentimentAverage (encodeSentimentAverage a) = some a := by
  obtain ⟨s, sc⟩ := a
  cases sc <;>
    simp [decodeSentimentAverage, encodeSentimentAverage, decodeReqField,
      decodeOptField, Json.getField, List.lookup, optField, Json.asStr,
      Json.asNum]

theorem decodeSentimentSegment_encodeSentimentSegment (s : SentimentSegment) :
    decodeSentimentSegment (encodeSentimentSegment s) = some s := by
  obtain ⟨t, sn, sc⟩ := s
  cases t <;> cases sn <;> cases sc <;>
    simp [decodeSentimentSegment, encodeSentimentSegment, decodeOptField,
      Json.getField, List.lookup, optField, Json.asStr, Json.asNum]

theorem decodeSentimentsData_encodeSentimentsData (d : SentimentsData) :
    decodeSentimentsData (encodeSentimentsData d) = some d := by
  obtain ⟨avg, segs⟩ := d
  cases avg <;> cases segs <;>
    simp [decodeSentimentsData, encodeSentimentsData, decodeOptField,
      Json.getField, List.lookup, optField, Json.asArr, decodeListOf,
      decodeSentimentAverage_encodeSentimentAverage,
      decodeEach_map_of_inverse decodeSentimentSegment encodeSentimentSegment
        decodeSentimentSegment_encodeSentimentSegment]

theorem decodeResults_encodeResults (r : Results) :
    decodeResults (encodeResults r) = some r := by
  obtain ⟨os, ot, ose, oi⟩ := r
  cases os <;> cases ot <;> cases ose <;> cases oi <;>
    simp [decodeResults, encodeResults, decodeOptField, Json.getField,
      List.lookup, optField,
      decodeSummary_encodeSummary, decodeTopicsData_encodeTopicsData,
      decodeSentimentsData_encodeSentimentsData,
      decodeIntentsData_encodeIntentsData]

theorem decodeFeatures_encodeFeatures (f : Features) :
    decodeFeatures (encodeFeatures f) = some f := by
  obtain ⟨a, b, c, d⟩ := f
  simp [decodeFeatures, encodeFeatures, decodeReqField, Json.getField,
    List.lookup, Json.asBool]

theorem decodeInputMode_encodeInputMode (m : InputMode) :
    decodeInputMode (encodeInputMode m) = some m := by
  cases m <;> rfl

theorem decodeEntry_encodeEntry (e : HistoryEntry) :
    decodeEntry (encodeEntry e) = some e := by
  obtain ⟨i, ts, inp, m, f, r⟩ := e
  cases r <;>
    simp [decodeEntry, encodeEntry, decodeReqField, decodeOptField,
      Json.getField, List.lookup, optField, Json.asStr,
      decodeInputMode_encodeInputMode, decodeFeatures_encodeFeatures,
      decodeResults_encodeResults]

theorem decodeHistory_encodeHistory (l : List HistoryEntry) :
    decodeHistory (encodeHistory l) = some l := by
  simp [decodeHistory, encodeHistory, Json.asArr,
    decodeEach_map_of_inverse decodeEntry encodeEntry decodeEntry_encodeEntry]

/-- Digit characters are injective below 10. -/
theorem digitChar_inj_below_ten :
    ∀ a < 10, ∀ b < 10, Nat.digitChar a = Nat.digitChar b → a = b := by decide

/-- Mapping `Nat.digitChar` over digit lists (entries `< 10`) is injective. -/
theorem map_digitChar_inj :
    ∀ l₁ l₂ : List ℕ, (∀ d ∈ l₁, d < 10) → (∀ d ∈ l₂, d < 10) →
      l₁.map Nat.digitChar = l₂.map Nat.digitChar → l₁ = l₂ := by
  intro l₁
  induction l₁ with
  | nil => intro l₂ _ _ h; cases l₂ <;> simp_all
  | cons x xs ih =>
      intro l₂ h₁ h₂ h
      cases l₂ with
      | nil => simp at h
      | cons y ys =>
          simp only [List.map_cons, List.cons.injEq] at h
          have hx := digitChar_inj_below_ten x (h₁ x (by simp)) y
            (h₂ y (by simp)) h.1
          have := ih ys (fun d hd => h₁ d (by simp [hd]))
            (fun d hd => h₂ d (by simp [hd])) h.2
          simp [hx, this]

/-- The decimal rendering of a natural number is injective. -/
theorem decimalString_injective : Function.Injective decimalString := by
  intro m n h
  by_cases hm : m = 0 <;> by_cases hn : n = 0
  · simp [hm, hn]
  · exfalso
    rw [decimalString, decimalString, if_pos hm, if_neg hn] at h
    have h0 : (['0'] : List Char).asString =
        ((Nat.digits 10 n).reverse.map Nat.digitChar).asString := h
    have hl := List.asString_inj.mp h0
    obtain ⟨d, hd⟩ : ∃ d, (Nat.digits 10 n).reverse = [d] := by
      cases hrev : (Nat.digits 10 n).reverse with
      | nil => rw [hrev] at hl; simp at hl
      | cons a t =>
          rw [hrev] at hl
          cases t with
          | nil => exact ⟨a, rfl⟩
          | cons b t' => simp at hl
    rw [hd] at hl
    have hdlt : d < 10 := by
      have : d ∈ Nat.digits 10 n := by
        have : d ∈ (Nat.digits 10 n).reverse := by simp [hd]
        simpa using this
      exact Nat.digits_lt_base (by norm_num) this
    have hd0 : d = 0 := by
      have : Nat.digitChar d = '0' := by simpa using hl.symm
      exact (digitChar_inj_below_ten d hdlt 0 (by norm_num) (by simpa using this)).symm ▸ rfl
    have hdig : Nat.digits 10 n = [0] := by
      have := congrArg List.reverse hd
      simpa [hd0] using this
    have : n = 0 := by
      have h1 := Nat.ofDigits_digits 10 n
      rw [hdig] at h1
      simpa [Nat.ofDigits] using h1.symm
    exact hn this
  · exfalso
    rw [decimalString, decimalString, if_neg hm, if_pos hn] at h
    have h0 : (['0'] : List Char).asString =
        ((Nat.digits 10 m).reverse.map Nat.digitChar).asString := h.symm
    have hl := List.asString_inj.mp h0
    obtain ⟨d, hd⟩ : ∃ d, (Nat.digits 10 m).reverse = [d] := by
      cases hrev : (Nat.digits 10 m).reverse with
      | nil => rw [hrev] at hl; simp at hl
      | cons a t =>
          rw [hrev] at hl
          cases t with
          | nil => exact ⟨a, rfl⟩
          | cons b t' => simp at hl
    rw [hd] at hl
    have hdlt : d < 10 := by
      have : d ∈ Nat.digits 10 m := by
        have : d ∈ (Nat.digits 10 m).reverse := by simp [hd]
        simpa using this
      exact Nat.digits_lt_base (by norm_num) this
    have hd0 : d = 0 := by
      have : Nat.digitChar d = '0' := by simpa using hl.symm
      exact (digitChar_inj_below_ten d hdlt 0 (by norm_num) (by simpa using this)).symm ▸ rfl
    have hdig : Nat.digits 10 m = [0] := by
      have := congrArg List.reverse hd
      simpa [hd0] using this
    have : m = 0 := by
      have h1 := Nat.ofDigits_digits 10 m
      rw [hdig] at h1
      simpa [Nat.ofDigits] using h1.symm
    exact hm this
  · rw [decimalString, decimalString, if_neg hm, if_neg hn] at h
    have hl := List.asString_inj.mp h
    have hrev := map_digitChar_inj _ _
      (fun d hd => Nat.digits_lt_base (by norm_num) (by simpa using hd))
      (fun d hd => Nat.digits_lt_base (by norm_num) (by simpa using hd)) hl
    have := List.reverse_injective hrev
    exact Nat.digits_inj_iff.mp this

/-- Correlation-identifier generation is injective in the observed
`Date.now()` value. -/
theorem mkRequestId_injective : Function.Injective mkRequestId := by
  intro s t h
  have hd := congrArg String.data h
  simp only [mkRequestId, String.data_append] at hd
  have : (decimalString s).data = (decimalString t).data :=
    List.append_cancel_left hd
  exact decimalString_injective (by
    cases hs : decimalString s
    cases ht : decimalString t
    rw [hs, ht] at this
    simp at this
    simp [this])

/-- Trimming the second operand of an append before an outer `take n` is
harmless. -/
theorem take_append_take {α : Type} (a b : List α) (n : ℕ) :
    (a ++ b.take n).take n = (a ++ b).take n := by
  simp [List.take_append_eq_append_take, List.take_take,
    Nat.min_eq_left (Nat.sub_le n a.length)]

/-- A successful `saveToHistory` on a well-formed slot prepends the encoded
entry and clamps to capacity. -/
theorem saveToHistory_arr (e : HistoryEntry) (st : StoredValue) (l : List Json)
    (hst : getHistory st = .arr l) :
    saveToHistory e false st =
      .parsed (.arr ((encodeEntry e :: l).take MAX_HISTORY_ENTRIES)) := by
  unfold saveToHistory
  rw [hst]
  rfl

/-- Folding `saveToHistory` (successful writes) over a non-empty batch of
entries: the slot ends up holding the encoded batch (newest-first) in front
of the old contents, clamped to capacity. -/
theorem getHistory_foldl_save (e : HistoryEntry) (es : List HistoryEntry) :
    ∀ (st : StoredValue) (l : List Json), getHistory st = .arr l →
      getHistory ((e :: es).foldl (fun acc x => saveToHistory x false acc) st) =
        .arr ((((e :: es).reverse.map encodeEntry) ++ l).take MAX_HISTORY_ENTRIES) := by
  induction es generalizing e with
  | nil =>
      intro st l hst
      rw [List.foldl_cons, List.foldl_nil, saveToHistory_arr e st l hst]
      simp [getHistory]
  | cons e' es ih =>
      intro st l hst
      have hst' : getHistory (saveToHistory e false st) =
          .arr ((encodeEntry e :: l).take MAX_HISTORY_ENTRIES) := by
        rw [saveToHistory_arr e st l hst]
        rfl
      have := ih e' (saveToHistory e false st)
        ((encodeEntry e :: l).take MAX_HISTORY_ENTRIES) hst'
      rw [List.foldl_cons, this, take_append_take]
      simp

/-- The ids observed by `renderHistory` on an encoded history are exactly the
entry ids, in order. -/
theorem storedIds_encodeHistory (l : List HistoryEntry) :
    storedIds (.parsed (encodeHistory l)) = l.map HistoryEntry.id := by
  have : ∀ js : List HistoryEntry,
      (js.map encodeEntry).filterMap
        (fun j => (j.getField "id").bind Json.asStr) = js.map HistoryEntry.id := by
    intro js
    induction js with
    | nil => rfl
    | cons x xs ih =>
        rw [List.map_cons, List.filterMap_cons]
        have hx : ((encodeEntry x).getField "id").bind Json.asStr = some x.id := rfl
        rw [hx, ih, List.map_cons]
  simpa [storedIds, getHistory, encodeHistory] using this l

/-- The four `create*Section` helpers each render their own feature. -/
theorem createSummarySection_feature (s : Summary) :
    (createSummarySection s).feature = .summarize := by
  obtain ⟨t⟩ := s
  cases t with
  | none => rfl
  | some tx =>
      dsimp [createSummarySection]
      split <;> rfl

theorem createTopicsSection_feature (d : TopicsData) :
    (createTopicsSection d).feature = .topics := by
  dsimp [createTopicsSection]
  split <;> rfl

theorem createSentimentSection_feature (d : SentimentsData) :
    (createSentimentSection d).feature = .sentiment := by
  dsimp [createSentimentSection]
  split <;> rfl

theorem createIntentsSection_feature (d : IntentsData) :
    (createIntentsSection d).feature = .intents := by
  dsimp [createIntentsSection]
  split <;> rfl

/-- A block's feature, mapped over one guarded section of
`displayResults`. -/
theorem map_feature_piece {α : Type} (flag : Bool) (field : Option α)
    (mk : α → Block) (ft : FeatureName) (h : ∀ d, (mk d).feature = ft) :
    ((sectionList flag field mk).map Block.feature) =
      if (flag && field.isSome) = true then [ft] else [] := by
  cases flag <;> cases field <;> simp [sectionList, h]

/-- Membership in one guarded section of `displayResults` forces the flag
and the field. -/
theorem mem_piece {α : Type} (flag : Bool) (field : Option α) (mk : α → Block)
    (b : Block) (hb : b ∈ sectionList flag field mk) :
    flag = true ∧ ∃ d, field = some d ∧ b = mk d := by
  cases flag with
  | false => simp [sectionList] at hb
  | true => cases field <;> simp_all [sectionList]

/-- Each section is the empty-state block exactly when its payload is
structurally empty. -/
theorem createSummarySection_isEmptyState (s : Summary) :
    (createSummarySection s).isEmptyState =
      (match s.text with | some tx => decide (tx = "") | none => true) := by
  obtain ⟨t⟩ := s
  cases t with
  | none => rfl
  | some tx => by_cases h : tx = "" <;> simp [createSummarySection, h, Block.isEmptyState]

theorem createTopicsSection_isEmptyState (d : TopicsData) :
    (createTopicsSection d).isEmptyState = decide ((allTopics d).length = 0) := by
  by_cases h : (allTopics d).length = 0 <;>
    simp [createTopicsSection, Block.isEmptyState, h, Nat.pos_iff_ne_zero]

theorem createSentimentSection_isEmptyState (d : SentimentsData) :
    (createSentimentSection d).isEmptyState = d.average.isNone := by
  cases h : d.average <;> simp [createSentimentSection, h, Block.isEmptyState]

theorem createIntentsSection_isEmptyState (d : IntentsData) :
    (createIntentsSection d).isEmptyState = decide ((allIntents d).length = 0) := by
  by_cases h : (allIntents d).length = 0 <;>
    simp [createIntentsSection, Block.isEmptyState, h, Nat.pos_iff_ne_zero]

/-! ## Claims -/

/-- Claim C8. For every prior state of the History Store and ActiveSelection,
the (confirmed) clear-all operation results in `count() == 0` and
`current() == none`. -/
theorem clearHistory_resets (s : AppState) :
    historyLength (handleClearHistory true s).storage = 0 ∧
    (handleClearHistory true s).activeAnalysisId = none := by
  simp [handleClearHistory, historyLength, getHistory]

/-- Claim C7, counterexample.  A persisted value that *parses* but is
malformed (the stored text `"42"`, which `JSON.parse` turns into the number
`42`) is *not* replaced by the empty store on load: `getHistory` returns it
verbatim, contradicting the claim that every absent/malformed/unparseable
persisted value loads as the empty history. -/
theorem getHistory_malformed_returned_verbatim :
    getHistory (.parsed (.num 42)) = .num 42 ∧
    getHistory (.parsed (.num 42)) ≠ .arr [] := by
  refine ⟨rfl, fun h => ?_⟩
  exact Json.noConfusion h

/-- Claim C7, amended.  The load operation is total (never throws) and
initializes the store empty when the persisted value is absent or fails to
parse; a persisted value that parses successfully is returned as-is, without
shape validation. -/
theorem getHistory_spec :
    getHistory .absent = .arr [] ∧ getHistory .unparseable = .arr [] ∧
    ∀ v : Json, getHistory (.parsed v) = v :=
  ⟨rfl, rfl, fun _ => rfl⟩

/-- Claim C9, counterexample.  Two distinct dispatches that observe the same
`Date.now()` millisecond (here two dispatches at time 5) generate *equal*
correlation identifiers, so the generated identifiers of a dispatch sequence
need not be pairwise distinct. -/
theorem mkRequestId_same_millisecond_collision :
    mkRequestId 5 = mkRequestId 5 ∧
    ¬ (([5, 5] : List ℕ).map mkRequestId).Nodup := by
  exact ⟨rfl, by simp⟩

/-- Claim C9, amended.  Correlation identifiers are distinct whenever the
`Date.now()` values observed by the two dispatches are distinct; uniqueness
within the store therefore holds exactly when no two dispatches share a
millisecond timestamp. -/
theorem mkRequestId_distinct_of_distinct_now (s t : ℕ) (h : s ≠ t) :
    mkRequestId s ≠ mkRequestId t :=
  fun he => h (mkRequestId_injective he)

theorem mkRequestId_distinct_of_distinct_now_witness :
    (5 : ℕ) ≠ 6 ∧ mkRequestId 5 ≠ mkRequestId 6 :=
  ⟨by decide, mkRequestId_distinct_of_distinct_now 5 6 (by decide)⟩

/-- Claim C6. Serializing a history of `K ≤ 10` records to the persistence
slot and reloading reproduces the same ordered sequence of records — the
decoded entries equal the originals, and the stored correlation ids appear
in the same newest-first order. -/
theorem history_roundtrip (l : List HistoryEntry)
    (hK : l.length ≤ MAX_HISTORY_ENTRIES) :
    decodeHistory (getHistory (.parsed (encodeHistory l))) = some l ∧
    storedIds (.parsed (encodeHistory l)) = l.map HistoryEntry.id :=
  ⟨by simpa [getHistory] using decodeHistory_encodeHistory l,
   storedIds_encodeHistory l⟩

theorem history_roundtrip_witness :
    [mkEntry "a"].length ≤ MAX_HISTORY_ENTRIES ∧
    decodeHistory (getHistory (.parsed (encodeHistory [mkEntry "a"]))) =
      some [mkEntry "a"] ∧
    storedIds (.parsed (encodeHistory [mkEntry "a"])) =
      [mkEntry "a"].map HistoryEntry.id :=
  ⟨by decide, (history_roundtrip [mkEntry "a"] (by decide)).1,
   (history_roundtrip [mkEntry "a"] (by decide)).2⟩

/-- Claim C2. Inserting `N > 10` distinct records into a functioning store (in
any initial state whose slot reads back as an array) leaves `count() = 10`,
and the stored history is exactly the encoding of the 10 most recently
inserted records in newest-first order. -/
theorem insert_overflow_keeps_recent (es : List HistoryEntry)
    (st : StoredValue) (l : List Json) (hwf : getHistory st = .arr l)
    (hdist : es.Nodup) (hlen : MAX_HISTORY_ENTRIES < es.length) :
    getHistory (es.foldl (fun acc e => saveToHistory e false acc) st) =
      encodeHistory (es.reverse.take MAX_HISTORY_ENTRIES) ∧
    historyLength (es.foldl (fun acc e => saveToHistory e false acc) st) =
      MAX_HISTORY_ENTRIES := by
  obtain ⟨e, es', rfl⟩ : ∃ e es', es = e :: es' := by
    cases es with
    | nil => simp [MAX_HISTORY_ENTRIES] at hlen
    | cons e es' => exact ⟨e, es', rfl⟩
  have hfold := getHistory_foldl_save e es' st l hwf
  have hlen' : MAX_HISTORY_ENTRIES ≤ ((e :: es').reverse.map encodeEntry).length := by
    simp only [List.length_map, List.length_reverse]
    omega
  have hmain : getHistory ((e :: es').foldl
      (fun acc x => saveToHistory x false acc) st) =
      encodeHistory ((e :: es').reverse.take MAX_HISTORY_ENTRIES) := by
    rw [hfold, List.take_append_eq_append_take,
      Nat.sub_eq_zero_of_le hlen', List.take_zero, List.append_nil,
      encodeHistory, List.map_take]
  refine ⟨hmain, ?_⟩
  rw [historyLength, hmain, encodeHistory]
  simp only [List.length_map, List.length_take, List.length_reverse,
    List.length_cons]
  simp only [List.length_cons] at hlen
  omega

theorem insert_overflow_keeps_recent_witness :
    getHistory .absent = .arr [] ∧
    ((["a", "b", "c", "d", "e", "f", "g", "h", "i", "j", "k"].map mkEntry)).Nodup ∧
    MAX_HISTORY_ENTRIES <
      (["a", "b", "c", "d", "e", "f", "g", "h", "i", "j", "k"].map mkEntry).length ∧
    historyLength ((["a", "b", "c", "d", "e", "f", "g", "h", "i", "j", "k"].map
        mkEntry).foldl (fun acc e => saveToHistory e false acc) .absent) =
      MAX_HISTORY_ENTRIES :=
  ⟨rfl, by decide, by decide,
   (insert_overflow_keeps_recent
      (["a", "b", "c", "d", "e", "f", "g", "h", "i", "j", "k"].map mkEntry)
      .absent [] rfl (by decide) (by decide)).2⟩

/-- Claim C5. An empty trimmed input, or an all-false feature descriptor, fails
with the corresponding validation error before any request is issued and
leaves the state untouched; any descriptor with at least one enabled feature
is accepted (exactly one request goes out and the outcome is never a
validation error). -/
theorem handleAnalyze_validation (mode : InputMode) (rawText rawUrl : String)
    (f : Features) (lang : String) (now : ℕ) (ts : String)
    (resp : BackendResponse) (wt : Bool) (s : AppState) :
    (jsTrim (selectedInput mode rawText rawUrl) = "" →
      handleAnalyze mode rawText rawUrl f lang now ts resp wt s =
        (s, [], .validationError "Please enter text or URL to analyze")) ∧
    (jsTrim (selectedInput mode rawText rawUrl) ≠ "" → f.anySelected = false →
      handleAnalyze mode rawText rawUrl f lang now ts resp wt s =
        (s, [], .validationError "Please select at least one intelligence feature")) ∧
    (jsTrim (selectedInput mode rawText rawUrl) ≠ "" → f.anySelected = true →
      (handleAnalyze mode rawText rawUrl f lang now ts resp wt s).2.1.length = 1 ∧
      ∀ msg, (handleAnalyze mode rawText rawUrl f lang now ts resp wt s).2.2 ≠
        .validationError msg) := by
  refine ⟨fun h => ?_, fun h1 h2 => ?_, fun h1 h2 => ?_⟩
  · simp [handleAnalyze, h]
  · simp [handleAnalyze, h1, h2]
  · cases hok : resp.ok <;> cases hres : resp.results <;>
      simp [handleAnalyze, h1, h2, hok, hres]

theorem handleAnalyze_validation_witness :
    (jsTrim "   " = "" ∧
      handleAnalyze .text "   " "" ⟨true, false, false, false⟩ "en" 7 "ts"
          ⟨true, none, some ⟨none, none, none, none⟩⟩ false ⟨.absent, none⟩ =
        (⟨.absent, none⟩, [], .validationError "Please enter text or URL to analyze")) ∧
    (jsTrim "hello" ≠ "" ∧ (⟨false, false, false, false⟩ : Features).anySelected = false ∧
      handleAnalyze .text "hello" "" ⟨false, false, false, false⟩ "en" 7 "ts"
          ⟨true, none, some ⟨none, none, none, none⟩⟩ false ⟨.absent, none⟩ =
        (⟨.absent, none⟩, [], .validationError "Please select at least one intelligence feature")) ∧
    (jsTrim "hello" ≠ "" ∧ (⟨true, false, false, false⟩ : Features).anySelected = true ∧
      (handleAnalyze .text "hello" "" ⟨true, false, false, false⟩ "en" 7 "ts"
          ⟨true, none, some ⟨none, none, none, none⟩⟩ false ⟨.absent, none⟩).2.1.length = 1 ∧
      ∀ msg,
        (handleAnalyze .text "hello" "" ⟨true, false, false, false⟩ "en" 7 "ts"
            ⟨true, none, some ⟨none, none, none, none⟩⟩ false ⟨.absent, none⟩).2.2 ≠
          .validationError msg) :=
  ⟨⟨by decide,
    (handleAnalyze_validation .text "   " "" ⟨true, false, false, false⟩ "en" 7 "ts"
      ⟨true, none, some ⟨none, none, none, none⟩⟩ false ⟨.absent, none⟩).1 (by decide)⟩,
   ⟨by decide, by decide,
    (handleAnalyze_validation .text "hello" "" ⟨false, false, false, false⟩ "en" 7 "ts"
      ⟨true, none, some ⟨none, none, none, none⟩⟩ false ⟨.absent, none⟩).2.1 (by decide) (by decide)⟩,
   ⟨by decide, by decide,
    (handleAnalyze_validation .text "hello" "" ⟨true, false, false, false⟩ "en" 7 "ts"
      ⟨true, none, some ⟨none, none, none, none⟩⟩ false ⟨.absent, none⟩).2.2 (by decide) rfl⟩⟩

/-- Claim C4, counterexample.  The claim fails in two regions of
"non-success backend response".  First, a non-2xx response whose
backend-supplied message is *present but empty* (`{error:{message:""}}`) is
surfaced with the generic message, not the supplied one — JavaScript `||`
tests truthiness, not presence.  Second, a 2xx response carrying an error
body and no `results` key (a non-success response per the interface, e.g.
`{error:{message:"quota exceeded"}}` with status 200) is not treated as a
failed dispatch at all: the store *is* mutated — a record without results
is inserted (count goes 0 to 1 below) — the selection assignment is
skipped, and the surfaced outcome is the rendering `TypeError`, not an
analysis error carrying the backend message. -/
theorem nonsuccess_response_claim_fails :
    ((handleAnalyze .text "hello" "" ⟨true, false, false, false⟩ "en" 7 "ts"
        ⟨false, some "", none⟩ false ⟨.absent, none⟩).2.2 =
      .analysisError "Analysis failed" ∧
     Outcome.analysisError "Analysis failed" ≠ .analysisError "") ∧
    (historyLength (handleAnalyze .text "hello" "" ⟨true, false, false, false⟩
        "en" 7 "ts" ⟨true, some "quota exceeded", none⟩ false
        ⟨.absent, none⟩).1.storage = 1 ∧
     historyLength (StoredValue.absent) = 0 ∧
     (handleAnalyze .text "hello" "" ⟨true, false, false, false⟩ "en" 7 "ts"
        ⟨true, some "quota exceeded", none⟩ false ⟨.absent, none⟩).2.2 =
      .renderFailure ∧
     ∀ m, (handleAnalyze .text "hello" "" ⟨true, false, false, false⟩ "en" 7 "ts"
        ⟨true, some "quota exceeded", none⟩ false ⟨.absent, none⟩).2.2 ≠
      .analysisError m) := by
  refine ⟨⟨by decide, by decide⟩, by decide, rfl, by decide, fun m => ?_⟩
  intro h
  have : Outcome.renderFailure = Outcome.analysisError m := by
    exact (by decide :
      (handleAnalyze .text "hello" "" ⟨true, false, false, false⟩ "en" 7 "ts"
        ⟨true, some "quota exceeded", none⟩ false ⟨.absent, none⟩).2.2 =
      Outcome.renderFailure) ▸ h
  exact Outcome.noConfusion this

/-- A write that throws (`localStorage.setItem` failing inside the `try`)
leaves the slot untouched: the error is swallowed by the `catch`. -/
theorem saveToHistory_writeThrows (e : HistoryEntry) (st : StoredValue) :
    saveToHistory e true st = st := by
  unfold saveToHistory
  cases hg : getHistory st <;> simp

/-- Claim C4, amended.  On a non-2xx response (`response.ok` false) the
dispatch fails with an error carrying the backend-supplied message when it
is present *and non-empty* (JavaScript truthiness) and the generic
`"Analysis failed"` otherwise; exactly one request was issued (no retry),
and the store and the active selection are left unchanged.  A 2xx response
whose body has no `results` key — also a non-success response when it
carries an error body — is *not* treated as a failed dispatch: still
exactly one request and an unchanged selection, but the store is mutated by
inserting the results-less record, and the surfaced outcome is the
rendering failure (an engine `TypeError` message), not an analysis error. -/
theorem dispatch_failure_surfaced (mode : InputMode) (rawText rawUrl : String)
    (f : Features) (lang : String) (now : ℕ) (ts : String)
    (resp : BackendResponse) (wt : Bool) (s : AppState)
    (h1 : jsTrim (selectedInput mode rawText rawUrl) ≠ "")
    (h2 : f.anySelected = true) :
    (resp.ok = false →
      (handleAnalyze mode rawText rawUrl f lang now ts resp wt s).1 = s ∧
      (handleAnalyze mode rawText rawUrl f lang now ts resp wt s).2.1.length = 1 ∧
      (∀ m, resp.errorMessage = some m → m ≠ "" →
        (handleAnalyze mode rawText rawUrl f lang now ts resp wt s).2.2 =
          .analysisError m) ∧
      (resp.errorMessage = none ∨ resp.errorMessage = some "" →
        (handleAnalyze mode rawText rawUrl f lang now ts resp wt s).2.2 =
          .analysisError "Analysis failed")) ∧
    (resp.ok = true → resp.results = none →
      (handleAnalyze mode rawText rawUrl f lang now ts resp wt s).2.1.length = 1 ∧
      (handleAnalyze mode rawText rawUrl f lang now ts resp wt s).1.activeAnalysisId =
        s.activeAnalysisId ∧
      (handleAnalyze mode rawText rawUrl f lang now ts resp wt s).1.storage =
        saveToHistory
          ⟨mkRequestId now, ts, jsTrim (selectedInput mode rawText rawUrl),
            mode, f, none⟩ wt s.storage ∧
      (handleAnalyze mode rawText rawUrl f lang now ts resp wt s).2.2 =
        .renderFailure) := by
  constructor
  · intro h3
    refine ⟨?_, ?_, ?_, ?_⟩
    · simp [handleAnalyze, h1, h2, h3]
    · simp [handleAnalyze, h1, h2, h3]
    · intro m hm hm'
      simp [handleAnalyze, h1, h2, h3, hm, hm']
    · rintro (hm | hm) <;> simp [handleAnalyze, h1, h2, h3, hm]
  · intro h3 hres
    refine ⟨?_, ?_, ?_, ?_⟩ <;> simp [handleAnalyze, h1, h2, h3, hres]

theorem dispatch_failure_surfaced_witness :
    (jsTrim "hello" ≠ "" ∧
      (⟨true, false, false, false⟩ : Features).anySelected = true) ∧
    ((handleAnalyze .text "hello" "" ⟨true, false, false, false⟩ "en" 7 "ts"
        ⟨false, some "quota exceeded", none⟩ false
        ⟨.absent, none⟩).1 = ⟨.absent, none⟩ ∧
     (handleAnalyze .text "hello" "" ⟨true, false, false, false⟩ "en" 7 "ts"
        ⟨false, some "quota exceeded", none⟩ false
        ⟨.absent, none⟩).2.1.length = 1 ∧
     (handleAnalyze .text "hello" "" ⟨true, false, false, false⟩ "en" 7 "ts"
        ⟨false, some "quota exceeded", none⟩ false
        ⟨.absent, none⟩).2.2 = .analysisError "quota exceeded") ∧
    ((handleAnalyze .text "hello" "" ⟨true, false, false, false⟩ "en" 7 "ts"
        ⟨true, some "quota exceeded", none⟩ false
        ⟨.absent, none⟩).1.activeAnalysisId = none ∧
     (handleAnalyze .text "hello" "" ⟨true, false, false, false⟩ "en" 7 "ts"
        ⟨true, some "quota exceeded", none⟩ false
        ⟨.absent, none⟩).2.2 = .renderFailure) :=
  ⟨⟨by decide, by decide⟩,
   ⟨((dispatch_failure_surfaced .text "hello" "" ⟨true, false, false, false⟩ "en" 7
        "ts" ⟨false, some "quota exceeded", none⟩ false ⟨.absent, none⟩
        (by decide) (by decide)).1 rfl).1,
    ((dispatch_failure_surfaced .text "hello" "" ⟨true, false, false, false⟩ "en" 7
        "ts" ⟨false, some "quota exceeded", none⟩ false ⟨.absent, none⟩
        (by decide) (by decide)).1 rfl).2.1,
    ((dispatch_failure_surfaced .text "hello" "" ⟨true, false, false, false⟩ "en" 7
        "ts" ⟨false, some "quota exceeded", none⟩ false ⟨.absent, none⟩
        (by decide) (by decide)).1 rfl).2.2.1 "quota exceeded" rfl (by decide)⟩,
   ⟨((dispatch_failure_surfaced .text "hello" "" ⟨true, false, false, false⟩ "en" 7
        "ts" ⟨true, some "quota exceeded", none⟩ false ⟨.absent, none⟩
        (by decide) (by decide)).2 rfl rfl).2.1,
    ((dispatch_failure_surfaced .text "hello" "" ⟨true, false, false, false⟩ "en" 7
        "ts" ⟨true, some "quota exceeded", none⟩ false ⟨.absent, none⟩
        (by decide) (by decide)).2 rfl rfl).2.2.2⟩⟩

/-- Claim C10. When the persistence write during insert throws (`setItem`
quota failure), the record is not persisted — the slot is unchanged — yet
the success path (a 2xx response whose `results` field is present, so that
rendering succeeds and the assignment is reached) still sets the active
selection to the new record's id, so the selection then references a record
absent from the store. -/
theorem quota_write_failure_dangles_selection (mode : InputMode)
    (rawText rawUrl : String) (f : Features) (lang : String) (now : ℕ)
    (ts : String) (resp : BackendResponse) (r : Results) (s : AppState)
    (h1 : jsTrim (selectedInput mode rawText rawUrl) ≠ "")
    (h2 : f.anySelected = true) (h3 : resp.ok = true)
    (h5 : resp.results = some r)
    (h4 : mkRequestId now ∉ storedIds s.storage) :
    (handleAnalyze mode rawText rawUrl f lang now ts resp true s).1.storage =
      s.storage ∧
    (handleAnalyze mode rawText rawUrl f lang now ts resp true s).1.activeAnalysisId =
      some (mkRequestId now) ∧
    mkRequestId now ∉
      storedIds (handleAnalyze mode rawText rawUrl f lang now ts resp true s).1.storage := by
  have hst : (handleAnalyze mode rawText rawUrl f lang now ts resp true s).1.storage =
      s.storage := by
    simp [handleAnalyze, h1, h2, h3, h5, saveToHistory_writeThrows]
  refine ⟨hst, ?_, ?_⟩
  · simp [handleAnalyze, h1, h2, h3, h5]
  · rw [hst]; exact h4

theorem quota_write_failure_dangles_selection_witness :
    (jsTrim "hello" ≠ "" ∧
      (⟨true, false, false, false⟩ : Features).anySelected = true ∧
      mkRequestId 7 ∉ storedIds StoredValue.absent) ∧
    (handleAnalyze .text "hello" "" ⟨true, false, false, false⟩ "en" 7 "ts"
        ⟨true, none, some ⟨none, none, none, none⟩⟩ true ⟨.absent, none⟩).1.storage =
      StoredValue.absent ∧
    (handleAnalyze .text "hello" "" ⟨true, false, false, false⟩ "en" 7 "ts"
        ⟨true, none, some ⟨none, none, none, none⟩⟩ true
        ⟨.absent, none⟩).1.activeAnalysisId = some (mkRequestId 7) ∧
    mkRequestId 7 ∉ storedIds (handleAnalyze .text "hello" "" ⟨true, false, false, false⟩
        "en" 7 "ts" ⟨true, none, some ⟨none, none, none, none⟩⟩ true
        ⟨.absent, none⟩).1.storage :=
  ⟨⟨by decide, by decide, by simp [storedIds, getHistory]⟩,
   (quota_write_failure_dangles_selection .text "hello" "" ⟨true, false, false, false⟩
      "en" 7 "ts" ⟨true, none, some ⟨none, none, none, none⟩⟩ ⟨none, none, none, none⟩
      ⟨.absent, none⟩ (by decide) (by decide) rfl rfl
      (by simp [storedIds, getHistory])).1,
   (quota_write_failure_dangles_selection .text "hello" "" ⟨true, false, false, false⟩
      "en" 7 "ts" ⟨true, none, some ⟨none, none, none, none⟩⟩ ⟨none, none, none, none⟩
      ⟨.absent, none⟩ (by decide) (by decide) rfl rfl
      (by simp [storedIds, getHistory])).2.1,
   (quota_write_failure_dangles_selection .text "hello" "" ⟨true, false, false, false⟩
      "en" 7 "ts" ⟨true, none, some ⟨none, none, none, none⟩⟩ ⟨none, none, none, none⟩
      ⟨.absent, none⟩ (by decide) (by decide) rfl rfl
      (by simp [storedIds, getHistory])).2.2⟩

/-- Claim C1, counterexample.  With the store at capacity and the oldest
record (`"r1"`) the active selection, inserting one more record evicts
`"r1"` from the store but `saveToHistory` leaves the selection untouched:
after the insert the selection still reads `some "r1"` — a dangling
reference, not the `none` the claim requires. -/
theorem eviction_does_not_clear_selection :
    historyLength tenEntryState.storage = MAX_HISTORY_ENTRIES ∧
    tenEntryState.activeAnalysisId = some "r1" ∧
    "r1" ∈ storedIds tenEntryState.storage ∧
    "r1" ∉ storedIds (saveToHistoryApp (mkEntry "r11") false tenEntryState).storage ∧
    (saveToHistoryApp (mkEntry "r11") false tenEntryState).activeAnalysisId =
      some "r1" := by
  refine ⟨by decide, rfl, by decide, by decide, rfl⟩

/-- Claim C1, amended.  The insert operation (`saveToHistory`) never modifies
the active selection — in particular it does not clear it when it evicts the
selected record; on the success path, `handleAnalyze` afterwards overwrites
the selection with the new record's id (so it ends at `some requestId`, not
`none`, and only becomes consistent again through that later assignment). -/
theorem insert_never_touches_selection (e : HistoryEntry) (wt : Bool)
    (s : AppState) :
    (saveToHistoryApp e wt s).activeAnalysisId = s.activeAnalysisId ∧
    (∀ (mode : InputMode) (rawText rawUrl : String) (f : Features)
        (lang : String) (now : ℕ) (ts : String) (resp : BackendResponse)
        (r : Results),
      jsTrim (selectedInput mode rawText rawUrl) ≠ "" →
      f.anySelected = true → resp.ok = true → resp.results = some r →
      (handleAnalyze mode rawText rawUrl f lang now ts resp wt s).1.activeAnalysisId =
        some (mkRequestId now)) := by
  refine ⟨rfl, fun mode rawText rawUrl f lang now ts resp r h1 h2 h3 h4 => ?_⟩
  simp [handleAnalyze, h1, h2, h3, h4]

theorem insert_never_touches_selection_witness :
    (saveToHistoryApp (mkEntry "a") false ⟨.absent, none⟩).activeAnalysisId = none ∧
    (jsTrim "hello" ≠ "" ∧
      (handleAnalyze .text "hello" "" ⟨true, false, false, false⟩ "en" 7 "ts"
          ⟨true, none, some ⟨none, none, none, none⟩⟩ false
          ⟨.absent, none⟩).1.activeAnalysisId = some (mkRequestId 7)) :=
  ⟨(insert_never_touches_selection (mkEntry "a") false ⟨.absent, none⟩).1,
   by decide,
   (insert_never_touches_selection (mkEntry "a") false ⟨.absent, none⟩).2 .text
      "hello" "" ⟨true, false, false, false⟩ "en" 7 "ts"
      ⟨true, none, some ⟨none, none, none, none⟩⟩ ⟨none, none, none, none⟩
      (by decide) (by decide) rfl rfl⟩

/-- Claim C3, counterexample.  A feature whose checkbox is checked but whose
result field is *absent* gets no block at all — `displayResults` guards each
section with `features.x && results.x`, so the claimed explicit empty-state
block is silently omitted. -/
theorem requested_absent_feature_block_omitted :
    featureFlag ⟨true, false, false, false⟩ .summarize = true ∧
    resultPresent ⟨none, none, none, none⟩ .summarize = false ∧
    displayResults ⟨none, none, none, none⟩ ⟨true, false, false, false⟩ = [] := by
  refine ⟨rfl, rfl, rfl⟩

/-- Claim C3, amended.  `displayResults` emits exactly one block per feature
whose flag is true *and* whose result field is present, in the canonical
order summarize, topics, sentiment, intents; a feature with a false flag or
an absent result field gets no block; and an emitted block is the explicit
empty-state exactly when the (present) payload is structurally empty. -/
theorem displayResults_blocks_spec (r : Results) (f : Features) :
    (displayResults r f).map Block.feature =
      canonicalOrder.filter (fun ft => featureFlag f ft && resultPresent r ft) ∧
    ∀ b ∈ displayResults r f,
      (b.isEmptyState = true ↔ structurallyEmpty r b.feature = true) := by
  constructor
  · rw [displayResults, List.map_append, List.map_append, List.map_append,
      map_feature_piece _ _ _ _ createSummarySection_feature,
      map_feature_piece _ _ _ _ createTopicsSection_feature,
      map_feature_piece _ _ _ _ createSentimentSection_feature,
      map_feature_piece _ _ _ _ createIntentsSection_feature]
    simp only [canonicalOrder, List.filter_cons, List.filter_nil,
      featureFlag, resultPresent]
    cases hs : (f.summarize && r.summary.isSome) <;>
      cases ht : (f.topics && r.topics.isSome) <;>
      cases he : (f.sentiment && r.sentiments.isSome) <;>
      cases hi : (f.intents && r.intents.isSome) <;>
      simp [hs, ht, he, hi]
  · intro b hb
    rw [displayResults] at hb
    simp only [List.mem_append] at hb
    rcases hb with ((h | h) | h) | h
    · obtain ⟨hflag, d, hd, rfl⟩ := mem_piece _ _ _ _ h
      rw [createSummarySection_feature, createSummarySection_isEmptyState]
      simp [structurallyEmpty, hd]
    · obtain ⟨hflag, d, hd, rfl⟩ := mem_piece _ _ _ _ h
      rw [createTopicsSection_feature, createTopicsSection_isEmptyState]
      simp [structurallyEmpty, hd]
    · obtain ⟨hflag, d, hd, rfl⟩ := mem_piece _ _ _ _ h
      rw [createSentimentSection_feature, createSentimentSection_isEmptyState]
      simp [structurallyEmpty, hd]
    · obtain ⟨hflag, d, hd, rfl⟩ := mem_piece _ _ _ _ h
      rw [createIntentsSection_feature, createIntentsSection_isEmptyState]
      simp [structurallyEmpty, hd]

theorem displayResults_blocks_spec_witness :
    ((displayResults ⟨some ⟨none⟩, none, none, none⟩
        ⟨true, false, false, false⟩).map Block.feature =
      canonicalOrder.filter (fun ft =>
        featureFlag ⟨true, false, false, false⟩ ft &&
        resultPresent ⟨some ⟨none⟩, none, none, none⟩ ft)) ∧
    Block.summaryEmpty ∈
      displayResults ⟨some ⟨none⟩, none, none, none⟩ ⟨true, false, false, false⟩ ∧
    (Block.summaryEmpty.isEmptyState = true ↔
      structurallyEmpty ⟨some ⟨none⟩, none, none, none⟩
        Block.summaryEmpty.feature = true) :=
  ⟨(displayResults_blocks_spec ⟨some ⟨none⟩, none, none, none⟩
      ⟨true, false, false, false⟩).1,
   by decide,
   (displayResults_blocks_spec ⟨some ⟨none⟩, none, none, none⟩
      ⟨true, false, false, false⟩).2 Block.summaryEmpty (by decide)⟩
